import Mathlib

/-!
Shallow embedding of src/src/gsi/WallState.cpp from the Mutation++ package
(namespace Mutation::GasSurfaceInteraction).  Real-valued quantities are
modelled as rationals; Eigen dynamic vectors become lists of rationals.
Eigen dynamic vectors constructed with a size argument are NOT
zero-initialized, so the constructor here receives the pre-existing
(indeterminate) memory contents of each buffer as explicit parameters.
Writing through caller-owned pointers is modelled by functional updates on
the list representing the buffer; a thrown exception is modelled by an
error value returned alongside the unchanged object or buffers.
-/

namespace Mutation

/-- Modelled from the spec (section 6, external collaborators, not part of
src): the thermodynamics provider, exposing the species count, the number
of energy equations, and the density-to-concentration conversion routine
used by getNdStateGasSurf. -/
structure Thermodynamics where
  nSpecies : ℕ
  nEnergyEqns : ℕ
  convertRhoToConc : List ℚ → List ℚ

/-- Modelled from the spec (section 6, external collaborators, not part of
src): the surface-properties provider, exposing the wall species count, the
site category count, the total site density, the fractional occupancy per
category and the species count per category. -/
structure SurfaceProperties where
  nWallSpecies : ℕ
  nSiteCategories : ℕ
  nTotalSites : ℚ
  fracSite : ℕ → ℚ
  nSpeciesinSite : ℕ → ℕ

/-- Modelled from the spec: Avogadro constant NA from the Constants header
(not under src).  The claims are insensitive to the exact numeric value. -/
def NA : ℚ := 6022140857 * 10 ^ 14

/-- Reading n doubles from a caller-owned buffer (an Eigen::Map of size n,
or a loop of n pointer reads).  Reads past the end of the list are
indeterminate in C++ and are modelled by the value 0. -/
def readBuf (p : List ℚ) (n : ℕ) : List ℚ :=
  (p ++ List.replicate n 0).take n

/-- Writing the values of src through a pointer into the buffer dst,
starting at position 0.  Writes past the end of dst are dropped (in C++
they would be out of bounds). -/
def writeInto (dst src : List ℚ) : List ℚ :=
  src.take dst.length ++ dst.drop src.length

/-- The error object thrown as InvalidInputError(argName, value) with a
streamed message, in Errors.h (not under src); it records the name of the
offending argument, the offending value and the streamed message text. -/
structure InvalidInputError where
  argName : String
  value : ℤ
  message : String
deriving DecidableEq

/-- Message streamed into the InvalidInputError thrown by setWallState. -/
def setWallStateUnsupportedMessage : String :=
  "This variable-set is not implemented in setWallState. Possible variable-sets are:\n  0: (pressure, temperature)\n  1: (species densities, temperature)\n"

/-- Message streamed into the InvalidInputError thrown by getWallState. -/
def getWallStateUnsupportedMessage : String :=
  "This variable-get is not implemented in getWallState. Possible variable-sets are:\n  1: (species densities, temperature)\n"

/-- The WallState object: data members of the class, as declared in the
header and initialized by the constructor in WallState.cpp.  The two
provider references m_thermo and m_surf_props are passed explicitly to the
member functions that read them instead of being stored here. -/
structure WallState where
  m_ns : ℕ
  m_nT : ℕ
  m_ns_surf : ℕ
  m_set_state_rhoi_T : ℤ
  mv_rhoi : List ℚ
  mv_T : List ℚ
  m_p : ℚ
  m_is_wall_state_set : Bool
  mv_surf_props_state : List ℚ
deriving DecidableEq

/-- Inner loop body of initializeSurfState: n consecutive writes of the
value v at positions pos, pos+1, ..., pos+n-1 of the buffer. -/
def setSeg (buf : List ℚ) (pos : ℕ) (v : ℚ) : ℕ → List ℚ
  | 0 => buf
  | n + 1 => setSeg (buf.set pos v) (pos + 1) v n

/-- One iteration of the outer loop of initializeSurfState over the site
categories: computes n_sites_dens = n_total_sites * n_frac_site /
n_sp_in_site and writes it into the next n_sp_in_site slots, advancing
pos_in_surf_props. -/
def surfStep (sp : SurfaceProperties) (s : List ℚ × ℕ) (i_sites : ℕ) : List ℚ × ℕ :=
  (setSeg s.1 s.2
      (sp.nTotalSites * sp.fracSite i_sites / (sp.nSpeciesinSite i_sites : ℚ))
      (sp.nSpeciesinSite i_sites),
    s.2 + sp.nSpeciesinSite i_sites)

/-- WallState::initializeSurfState, acting on mv_surf_props_state whose
prior contents are buf: loops over the site categories, writing the per
species site density of each category into consecutive slots. -/
def initializeSurfState (sp : SurfaceProperties) (buf : List ℚ) : List ℚ :=
  ((List.range sp.nSiteCategories).foldl (surfStep sp) (buf, 0)).1

/-- The WallState constructor: captures ns, nT and nsSurf from the two
providers, allocates the Eigen vectors mv_rhoi (size ns), mv_T (size nT)
and mv_surf_props_state (size nsSurf) without initializing their contents
(rhoi0, T0 and surf0 are the indeterminate memory contents; p0 that of the
uninitialized double m_p), sets m_is_wall_state_set to false and runs
initializeSurfState. -/
def WallState.construct (thermo : Thermodynamics) (surf_props : SurfaceProperties)
    (rhoi0 T0 : List ℚ) (p0 : ℚ) (surf0 : List ℚ) : WallState :=
  { m_ns := thermo.nSpecies
    m_nT := thermo.nEnergyEqns
    m_ns_surf := surf_props.nWallSpecies
    m_set_state_rhoi_T := 1
    mv_rhoi := readBuf rhoi0 thermo.nSpecies
    mv_T := readBuf T0 thermo.nEnergyEqns
    m_p := p0
    m_is_wall_state_set := false
    mv_surf_props_state :=
      initializeSurfState surf_props (readBuf surf0 surf_props.nWallSpecies) }

/-- WallState::setWallRhoi: mv_rhoi = Eigen::Map(p_rhoi, m_ns). -/
def WallState.setWallRhoi (w : WallState) (p_rhoi : List ℚ) : WallState :=
  { w with mv_rhoi := readBuf p_rhoi w.m_ns }

/-- WallState::setWallT: mv_T = Eigen::Map(p_T, m_nT). -/
def WallState.setWallT (w : WallState) (p_T : List ℚ) : WallState :=
  { w with mv_T := readBuf p_T w.m_nT }

/-- WallState::setWallP: m_p = p. -/
def WallState.setWallP (w : WallState) (p : ℚ) : WallState :=
  { w with m_p := p }

/-- WallState::setWallState: switch on state_var; case 0 sets pressure (the
dereferenced first entry of p_mass) and temperatures, case 1 sets species
densities and temperatures, then m_is_wall_state_set = true; the default
case throws InvalidInputError before any member is assigned, so the object
is returned unchanged together with the error. -/
def WallState.setWallState (w : WallState) (p_mass p_energy : List ℚ)
    (state_var : ℤ) : WallState × Option InvalidInputError :=
  if state_var = 0 then
    ({ (w.setWallP (p_mass.headD 0)).setWallT p_energy with
        m_is_wall_state_set := true }, none)
  else if state_var = 1 then
    ({ (w.setWallRhoi p_mass).setWallT p_energy with
        m_is_wall_state_set := true }, none)
  else
    (w, some { argName := "variable set", value := state_var,
               message := setWallStateUnsupportedMessage })

/-- Result of WallState::getWallState: the two caller-owned output buffers
after the call, and the InvalidInputError when one was thrown. -/
structure GetWallStateResult where
  p_rhoi : List ℚ
  p_rhoie : List ℚ
  error : Option InvalidInputError
deriving DecidableEq

/-- WallState::getWallState: for state_var 1, copies getWallRhoi()(i) into
p_rhoi for i below m_ns and getWallT()(i) into p_rhoie for i below m_nT;
any other id throws InvalidInputError before any write, so both buffers
are returned unchanged together with the error. -/
def WallState.getWallState (w : WallState) (p_rhoi p_rhoie : List ℚ)
    (state_var : ℤ) : GetWallStateResult :=
  if state_var = 1 then
    { p_rhoi := writeInto p_rhoi (readBuf w.mv_rhoi w.m_ns)
      p_rhoie := writeInto p_rhoie (readBuf w.mv_T w.m_nT)
      error := none }
  else
    { p_rhoi := p_rhoi
      p_rhoie := p_rhoie
      error := some { argName := "variable get", value := state_var,
                      message := getWallStateUnsupportedMessage } }

/-- WallState::getNdStateGasSurf: converts mv_rhoi to concentration with
the thermodynamics provider, writing m_ns values into the front of the
output vector, multiplies the first m_ns entries by NA, and assigns the
first m_ns_surf entries of mv_surf_props_state to the last m_ns_surf
entries of the output vector. -/
def WallState.getNdStateGasSurf (w : WallState) (thermo : Thermodynamics)
    (v_wall_state : List ℚ) : List ℚ :=
  let v1 := writeInto v_wall_state (readBuf (thermo.convertRhoToConc w.mv_rhoi) w.m_ns)
  let v2 := (v1.take w.m_ns).map (fun x => x * NA) ++ v1.drop w.m_ns
  v2.take (v2.length - w.m_ns_surf) ++ readBuf w.mv_surf_props_state w.m_ns_surf

/-- Operations a client can perform on a constructed WallState that may
mutate it (getWallState and getNdStateGasSurf write only into caller
buffers and leave the object unchanged, so they are omitted). -/
inductive WallOp
  | setState (p_mass p_energy : List ℚ) (state_var : ℤ)
  | setRhoi (p_rhoi : List ℚ)
  | setT (p_T : List ℚ)
  | setP (p : ℚ)

/-- Apply one operation to a WallState (a thrown error leaves the object
unchanged). -/
def applyOp (w : WallState) : WallOp → WallState
  | .setState m e sv => (w.setWallState m e sv).1
  | .setRhoi p => w.setWallRhoi p
  | .setT p => w.setWallT p
  | .setP p => w.setWallP p

/-- Run a sequence of operations on a WallState. -/
def runOps (w : WallState) (ops : List WallOp) : WallState :=
  ops.foldl applyOp w

/-- The list of per species site densities produced category by category,
written the way the specification describes the site-initialization
algorithm: for each category in provider order, its species count many
copies of total times fraction over species count. -/
def segList (sp : SurfaceProperties) (i : ℕ) : List ℚ :=
  List.replicate (sp.nSpeciesinSite i)
    (sp.nTotalSites * sp.fracSite i / (sp.nSpeciesinSite i : ℚ))

/-- Concatenation of the per category segments over all categories in
provider order. -/
def siteDensityList (sp : SurfaceProperties) : List ℚ :=
  (List.range sp.nSiteCategories).flatMap (segList sp)

/-- Number of surface-species slots consumed by the categories before
category c. -/
def siteOffset (sp : SurfaceProperties) (c : ℕ) : ℕ :=
  ((List.range c).map sp.nSpeciesinSite).sum

theorem readBuf_length (p : List ℚ) (n : ℕ) : (readBuf p n).length = n := by
  simp [readBuf]

theorem readBuf_eq_self (p : List ℚ) (n : ℕ) (h : p.length = n) : readBuf p n = p := by
  subst h
  simp [readBuf]

theorem writeInto_eq_self (dst src : List ℚ) (h : dst.length = src.length) :
    writeInto dst src = src := by
  rw [writeInto, h, List.take_length, ← h, List.drop_length, List.append_nil]

theorem writeInto_append (dst src : List ℚ) (h : src.length ≤ dst.length) :
    writeInto dst src = src ++ dst.drop src.length := by
  rw [writeInto, List.take_of_length_le h]

/-- C1: for every WallState whose speciesDensities has length ns and
surfaceSiteDensities has length nsSurf, getNdStateGasSurf called with an
output buffer of length exactly ns plus nsSurf writes into the first ns
slots the density-to-concentration conversion of speciesDensities by the
thermodynamics provider scaled by the Avogadro number, and copies
surfaceSiteDensities unchanged into the trailing nsSurf slots. -/
theorem getNdStateGasSurf_correct (w : WallState) (thermo : Thermodynamics) (v : List ℚ)
    (hrho : w.mv_rhoi.length = w.m_ns)
    (hsurf : w.mv_surf_props_state.length = w.m_ns_surf)
    (hconv : (thermo.convertRhoToConc w.mv_rhoi).length = w.m_ns)
    (hv : v.length = w.m_ns + w.m_ns_surf) :
    w.getNdStateGasSurf thermo v =
      (thermo.convertRhoToConc w.mv_rhoi).map (fun x => x * NA) ++
        w.mv_surf_props_state := by
  have hle : (thermo.convertRhoToConc w.mv_rhoi).length ≤ v.length := by omega
  simp only [WallState.getNdStateGasSurf]
  rw [readBuf_eq_self _ _ hconv, writeInto_append _ _ hle, hconv,
    List.take_left' hconv, List.drop_left' hconv]
  have hmaplen : ((thermo.convertRhoToConc w.mv_rhoi).map (fun x => x * NA)).length
      = w.m_ns := by
    rw [List.length_map, hconv]
  have hlen2 : ((thermo.convertRhoToConc w.mv_rhoi).map (fun x => x * NA) ++
      v.drop w.m_ns).length = w.m_ns + w.m_ns_surf := by
    rw [List.length_append, hmaplen, List.length_drop, hv]
    omega
  rw [hlen2, Nat.add_sub_cancel, List.take_left' hmaplen,
    readBuf_eq_self _ _ hsurf]

/-- C2: for every pair of input arrays of lengths ns and nT, calling
setWallState with variable-set id 1 and then getWallState with id 1 writes
back exactly the same density and temperature values, index for index,
with no transformation. -/
theorem setWallState_getWallState_roundTrip (w : WallState) (d t outd outt : List ℚ)
    (hd : d.length = w.m_ns) (ht : t.length = w.m_nT)
    (hod : outd.length = w.m_ns) (hot : outt.length = w.m_nT) :
    (w.setWallState d t 1).2 = none ∧
    ((w.setWallState d t 1).1.getWallState outd outt 1).error = none ∧
    ((w.setWallState d t 1).1.getWallState outd outt 1).p_rhoi = d ∧
    ((w.setWallState d t 1).1.getWallState outd outt 1).p_rhoie = t := by
  have hset : (w.setWallState d t 1).1 =
      { (w.setWallRhoi d).setWallT t with m_is_wall_state_set := true } := by
    simp [WallState.setWallState]
  refine ⟨by simp [WallState.setWallState], ?_, ?_, ?_⟩
  · rw [hset]
    simp [WallState.getWallState]
  · rw [hset]
    simp only [WallState.getWallState, if_pos rfl]
    have : ({ (w.setWallRhoi d).setWallT t with
        m_is_wall_state_set := true } : WallState).mv_rhoi = readBuf d w.m_ns := by
      simp [WallState.setWallT, WallState.setWallRhoi]
    rw [this, readBuf_eq_self _ _ hd]
    show writeInto outd (readBuf d w.m_ns) = d
    rw [readBuf_eq_self _ _ hd, writeInto_eq_self _ _ (by omega)]
  · rw [hset]
    simp only [WallState.getWallState, if_pos rfl]
    have : ({ (w.setWallRhoi d).setWallT t with
        m_is_wall_state_set := true } : WallState).mv_T = readBuf t w.m_nT := by
      simp [WallState.setWallT, WallState.setWallRhoi]
    rw [this, readBuf_eq_self _ _ ht]
    show writeInto outt (readBuf t w.m_nT) = t
    rw [readBuf_eq_self _ _ ht, writeInto_eq_self _ _ (by omega)]

/-- C5: for every variableSetId outside 0 and 1, setWallState fails with
an unsupported variable-set error that records the offending id, the
offending argument name, and the message enumerating the two valid ids,
and the WallState object is returned with no field mutated. -/
theorem setWallState_unsupported (w : WallState) (p_mass p_energy : List ℚ)
    (state_var : ℤ) (h0 : state_var ≠ 0) (h1 : state_var ≠ 1) :
    w.setWallState p_mass p_energy state_var =
      (w, some { argName := "variable set", value := state_var,
                 message := setWallStateUnsupportedMessage }) := by
  simp [WallState.setWallState, h0, h1]

/-- C6: for every variableSetId other than 1, getWallState fails with an
unsupported variable-get error recording the offending id, the argument
name, and the message naming the single valid id, and writes nothing into
either caller-supplied output buffer. -/
theorem getWallState_unsupported (w : WallState) (p_rhoi p_rhoie : List ℚ)
    (state_var : ℤ) (h1 : state_var ≠ 1) :
    w.getWallState p_rhoi p_rhoie state_var =
      { p_rhoi := p_rhoi, p_rhoie := p_rhoie,
        error := some { argName := "variable get", value := state_var,
                        message := getWallStateUnsupportedMessage } } := by
  simp [WallState.getWallState, h1]

/-- C9: setWallState copies the energy array into temperatures for both
supported ids; with id 0 it additionally copies the single mass value into
pressure and leaves speciesDensities unchanged; with id 1 it additionally
copies the mass array into speciesDensities and leaves pressure unchanged;
surfaceSiteDensities is unchanged by every setWallState call. -/
theorem setWallState_frame (w : WallState) (p_mass0 p_mass1 p_energy : List ℚ)
    (h0 : p_mass0.length = 1) (h1 : p_mass1.length = w.m_ns)
    (hT : p_energy.length = w.m_nT) :
    ((w.setWallState p_mass0 p_energy 0).1.mv_T = p_energy ∧
     (w.setWallState p_mass0 p_energy 0).1.m_p = p_mass0.headD 0 ∧
     (w.setWallState p_mass0 p_energy 0).1.mv_rhoi = w.mv_rhoi) ∧
    ((w.setWallState p_mass1 p_energy 1).1.mv_T = p_energy ∧
     (w.setWallState p_mass1 p_energy 1).1.mv_rhoi = p_mass1 ∧
     (w.setWallState p_mass1 p_energy 1).1.m_p = w.m_p) ∧
    (∀ (pm pe : List ℚ) (sv : ℤ),
      (w.setWallState pm pe sv).1.mv_surf_props_state =
        w.mv_surf_props_state) := by
  refine ⟨⟨?_, ?_, ?_⟩, ⟨?_, ?_, ?_⟩, ?_⟩
  · simp [WallState.setWallState, WallState.setWallT, WallState.setWallP,
      readBuf_eq_self _ _ hT]
  · simp [WallState.setWallState, WallState.setWallT, WallState.setWallP]
  · simp [WallState.setWallState, WallState.setWallT, WallState.setWallP]
  · simp [WallState.setWallState, WallState.setWallT, WallState.setWallRhoi,
      readBuf_eq_self _ _ hT]
  · simp [WallState.setWallState, WallState.setWallT, WallState.setWallRhoi,
      readBuf_eq_self _ _ h1]
  · simp [WallState.setWallState, WallState.setWallT, WallState.setWallRhoi]
  · intro pm pe sv
    by_cases hsv0 : sv = 0
    · simp [WallState.setWallState, hsv0, WallState.setWallT, WallState.setWallP]
    · by_cases hsv1 : sv = 1
      · simp [WallState.setWallState, hsv0, hsv1, WallState.setWallT,
          WallState.setWallRhoi]
      · simp [WallState.setWallState, hsv0, hsv1]

/-- C10: the output of getNdStateGasSurf depends only on speciesDensities,
surfaceSiteDensities, the stored counts, and the thermodynamics provider
conversion, and not on pressure or on which variable-set was last used:
two WallState instances agreeing on those fields but free to differ in
pressure, temperatures, or the isSet flag produce identical output. -/
theorem getNdStateGasSurf_noninterference (thermo : Thermodynamics)
    (w1 w2 : WallState) (v : List ℚ)
    (hns : w1.m_ns = w2.m_ns) (hnssurf : w1.m_ns_surf = w2.m_ns_surf)
    (hrho : w1.mv_rhoi = w2.mv_rhoi)
    (hsurf : w1.mv_surf_props_state = w2.mv_surf_props_state) :
    w1.getNdStateGasSurf thermo v = w2.getNdStateGasSurf thermo v := by
  simp only [WallState.getNdStateGasSurf, hns, hnssurf, hrho, hsurf]

theorem set_append_cons (done : List ℚ) (r v : ℚ) (rest : List ℚ) :
    (done ++ r :: rest).set done.length v = done ++ v :: rest := by
  induction done with
  | nil => rfl
  | cons d ds ih =>
      show d :: (ds ++ r :: rest).set ds.length v = d :: (ds ++ v :: rest)
      rw [ih]

theorem setSeg_append : ∀ (n : ℕ) (done rest : List ℚ) (v : ℚ), n ≤ rest.length →
    setSeg (done ++ rest) done.length v n =
      done ++ (List.replicate n v ++ rest.drop n) := by
  intro n
  induction n with
  | zero =>
      intro done rest v _
      simp [setSeg]
  | succ n ih =>
      intro done rest v h
      cases rest with
      | nil => simp at h
      | cons r rest =>
          have h2 : n ≤ rest.length := by
            simp only [List.length_cons] at h
            omega
          have key := ih (done ++ [v]) rest v h2
          simp only [List.append_assoc, List.singleton_append, List.length_append,
            List.length_cons, List.length_nil, Nat.zero_add] at key
          show setSeg ((done ++ r :: rest).set done.length v) (done.length + 1) v n =
            done ++ (List.replicate (n + 1) v ++ (r :: rest).drop (n + 1))
          rw [set_append_cons, key]
          simp [List.replicate_succ]

theorem surfFold_append (sp : SurfaceProperties) :
    ∀ (l : List ℕ) (done rest : List ℚ),
    (l.flatMap (segList sp)).length ≤ rest.length →
    List.foldl (surfStep sp) (done ++ rest, done.length) l =
      (done ++ (l.flatMap (segList sp) ++ rest.drop (l.flatMap (segList sp)).length),
        done.length + (l.flatMap (segList sp)).length) := by
  intro l
  induction l with
  | nil =>
      intro done rest h
      simp
  | cons a l ih =>
      intro done rest h
      have hseg : (segList sp a).length = sp.nSpeciesinSite a := by simp [segList]
      rw [List.flatMap_cons, List.length_append, hseg] at h
      have ha : sp.nSpeciesinSite a ≤ rest.length := by omega
      rw [List.foldl_cons]
      have hstep : surfStep sp (done ++ rest, done.length) a =
          ((done ++ segList sp a) ++ rest.drop (sp.nSpeciesinSite a),
            (done ++ segList sp a).length) := by
        rw [surfStep, setSeg_append _ _ _ _ ha, List.length_append, hseg,
          ← List.append_assoc]
        rfl
      rw [hstep]
      have hdroplen : (l.flatMap (segList sp)).length ≤
          (rest.drop (sp.nSpeciesinSite a)).length := by
        rw [List.length_drop]
        omega
      rw [ih (done ++ segList sp a) (rest.drop (sp.nSpeciesinSite a)) hdroplen]
      rw [List.flatMap_cons, List.drop_drop, List.length_append, List.length_append,
        hseg]
      rw [List.append_assoc, List.append_assoc, Nat.add_assoc]

theorem initializeSurfState_eq (sp : SurfaceProperties) (buf : List ℚ)
    (h : (siteDensityList sp).length ≤ buf.length) :
    initializeSurfState sp buf =
      siteDensityList sp ++ buf.drop (siteDensityList sp).length := by
  have key := surfFold_append sp (List.range sp.nSiteCategories) [] buf
    (by simpa [siteDensityList] using h)
  simp only [List.nil_append, List.length_nil] at key
  rw [initializeSurfState, key]
  rfl

theorem flatMap_segList_length (sp : SurfaceProperties) (l : List ℕ) :
    (l.flatMap (segList sp)).length = (l.map sp.nSpeciesinSite).sum := by
  induction l with
  | nil => rfl
  | cons a l ih => simp [List.flatMap_cons, segList, ih]

theorem flatMap_segList_sum (sp : SurfaceProperties) (l : List ℕ)
    (h : ∀ i ∈ l, 0 < sp.nSpeciesinSite i) :
    (l.flatMap (segList sp)).sum = sp.nTotalSites * (l.map sp.fracSite).sum := by
  induction l with
  | nil => simp
  | cons a l ih =>
      have ha : (sp.nSpeciesinSite a : ℚ) ≠ 0 := by
        have := h a (List.mem_cons_self a l)
        exact_mod_cast Nat.pos_iff_ne_zero.mp this
      have hsum := ih (fun i hi => h i (List.mem_cons_of_mem a hi))
      simp only [List.flatMap_cons, List.sum_append, List.map_cons, List.sum_cons,
        hsum, segList, List.sum_replicate, nsmul_eq_mul]
      field_simp
      ring

theorem flatMap_segList_getElem (sp : SurfaceProperties) :
    ∀ (l : List ℕ) (c j x : ℕ), l[c]? = some x →
    j < sp.nSpeciesinSite x →
    (l.flatMap (segList sp))[((l.take c).map sp.nSpeciesinSite).sum + j]? =
      some (sp.nTotalSites * sp.fracSite x / (sp.nSpeciesinSite x : ℚ)) := by
  intro l
  induction l with
  | nil =>
      intro c j x hx
      simp at hx
  | cons a l ih =>
      intro c j x hx hj
      cases c with
      | zero =>
          have hax : a = x := by simpa using hx
          subst hax
          simp only [List.take_zero, List.map_nil, List.sum_nil, Nat.zero_add]
          rw [List.flatMap_cons]
          have hjlen : j < (segList sp a).length := by simpa [segList] using hj
          rw [List.getElem?_append_left hjlen]
          simp [segList, hj]
      | succ c =>
          have hx2 : l[c]? = some x := by simpa using hx
          have hlen : (segList sp a).length = sp.nSpeciesinSite a := by simp [segList]
          rw [List.take_succ_cons, List.map_cons, List.sum_cons, List.flatMap_cons,
            Nat.add_assoc]
          rw [List.getElem?_append_right (by omega)]
          have hsub : sp.nSpeciesinSite a +
              (((l.take c).map sp.nSpeciesinSite).sum + j) - (segList sp a).length =
              ((l.take c).map sp.nSpeciesinSite).sum + j := by
            rw [hlen]
            omega
          rw [hsub]
          exact ih c j x hx2 hj

theorem sum_map_range_le (m : ℕ → ℕ) : ∀ (C c : ℕ), c < C →
    ((List.range c).map m).sum + m c ≤ ((List.range C).map m).sum := by
  intro C
  induction C with
  | zero =>
      intro c hc
      exact absurd hc (Nat.not_lt_zero c)
  | succ C ih =>
      intro c hc
      rw [List.range_succ, List.map_append, List.sum_append]
      simp only [List.map_cons, List.map_nil, List.sum_cons, List.sum_nil]
      rcases Nat.lt_or_ge c C with h | h
      · have := ih c h
        omega
      · have hcC : c = C := by omega
        subst hcC
        omega

/-- C3: for every surface-properties provider, the surface-site
initialization run at construction assigns to each of the m surface
species slots of category c the identical value total times fraction over
the species count of the category, consuming output slots in the provider
category order and, within a category, in the provider species enumeration
order: the slot at position siteOffset c plus j holds that value. -/
theorem initializeSurfState_categoryValue (thermo : Thermodynamics)
    (sp : SurfaceProperties) (rhoi0 T0 : List ℚ) (p0 : ℚ) (surf0 : List ℚ)
    (c j : ℕ)
    (hm : ∀ i < sp.nSiteCategories, 0 < sp.nSpeciesinSite i)
    (hfit : ((List.range sp.nSiteCategories).map sp.nSpeciesinSite).sum ≤
      sp.nWallSpecies)
    (hc : c < sp.nSiteCategories) (hj : j < sp.nSpeciesinSite c) :
    ((WallState.construct thermo sp rhoi0 T0 p0 surf0).mv_surf_props_state)[siteOffset sp c + j]? =
      some (sp.nTotalSites * sp.fracSite c / (sp.nSpeciesinSite c : ℚ)) := by
  have hlen : (siteDensityList sp).length =
      ((List.range sp.nSiteCategories).map sp.nSpeciesinSite).sum := by
    rw [siteDensityList, flatMap_segList_length]
  have hle : (siteDensityList sp).length ≤ (readBuf surf0 sp.nWallSpecies).length := by
    rw [hlen, readBuf_length]
    exact hfit
  have hidx : siteOffset sp c + j < (siteDensityList sp).length := by
    rw [hlen]
    have := sum_map_range_le sp.nSpeciesinSite sp.nSiteCategories c hc
    rw [siteOffset]
    omega
  show (initializeSurfState sp (readBuf surf0 sp.nWallSpecies))[siteOffset sp c + j]? = _
  rw [initializeSurfState_eq sp _ hle, List.getElem?_append_left hidx]
  have key := flatMap_segList_getElem sp (List.range sp.nSiteCategories) c j c
    (by rw [List.getElem?_range hc]) hj
  rw [List.take_range, Nat.min_eq_left (Nat.le_of_lt hc)] at key
  simpa [siteDensityList, siteOffset] using key

/-- C4: for every non-degenerate site model whose fractions sum to 1 and
whose per-category species counts sum to nsSurf, the sum of all entries of
surfaceSiteDensities computed at construction equals the provider total
site density, exactly over rational arithmetic. -/
theorem initializeSurfState_conservation (thermo : Thermodynamics)
    (sp : SurfaceProperties) (rhoi0 T0 : List ℚ) (p0 : ℚ) (surf0 : List ℚ)
    (hm : ∀ i < sp.nSiteCategories, 0 < sp.nSpeciesinSite i)
    (hfrac : ((List.range sp.nSiteCategories).map sp.fracSite).sum = 1)
    (hcount : ((List.range sp.nSiteCategories).map sp.nSpeciesinSite).sum =
      sp.nWallSpecies) :
    ((WallState.construct thermo sp rhoi0 T0 p0 surf0).mv_surf_props_state).sum =
      sp.nTotalSites := by
  have hlen : (siteDensityList sp).length = sp.nWallSpecies := by
    rw [siteDensityList, flatMap_segList_length, hcount]
  have hle : (siteDensityList sp).length ≤ (readBuf surf0 sp.nWallSpecies).length := by
    rw [hlen, readBuf_length]
  show (initializeSurfState sp (readBuf surf0 sp.nWallSpecies)).sum = _
  rw [initializeSurfState_eq sp _ hle]
  have hdrop : (readBuf surf0 sp.nWallSpecies).drop (siteDensityList sp).length = [] := by
    apply List.drop_eq_nil_of_le
    rw [readBuf_length, hlen]
  rw [hdrop, List.append_nil]
  have hsum := flatMap_segList_sum sp (List.range sp.nSiteCategories)
    (fun i hi => hm i (List.mem_range.mp hi))
  rw [siteDensityList, hsum, hfrac, mul_one]

/-- C7 (amended): construction captures ns, nT and nsSurf from the two
providers, allocates storage of lengths ns and nT whose initial contents
are the pre-existing indeterminate memory contents (Eigen vectors sized at
construction are not zero-initialized), computes and stores
surfaceSiteDensities via the site-initialization algorithm, and sets the
isSet flag to false. -/
theorem construct_spec (thermo : Thermodynamics) (sp : SurfaceProperties)
    (rhoi0 T0 : List ℚ) (p0 : ℚ) (surf0 : List ℚ) :
    (WallState.construct thermo sp rhoi0 T0 p0 surf0).m_ns = thermo.nSpecies ∧
    (WallState.construct thermo sp rhoi0 T0 p0 surf0).m_nT = thermo.nEnergyEqns ∧
    (WallState.construct thermo sp rhoi0 T0 p0 surf0).m_ns_surf = sp.nWallSpecies ∧
    (WallState.construct thermo sp rhoi0 T0 p0 surf0).mv_rhoi.length = thermo.nSpecies ∧
    (WallState.construct thermo sp rhoi0 T0 p0 surf0).mv_T.length = thermo.nEnergyEqns ∧
    (WallState.construct thermo sp rhoi0 T0 p0 surf0).mv_rhoi =
      readBuf rhoi0 thermo.nSpecies ∧
    (WallState.construct thermo sp rhoi0 T0 p0 surf0).mv_T =
      readBuf T0 thermo.nEnergyEqns ∧
    (WallState.construct thermo sp rhoi0 T0 p0 surf0).mv_surf_props_state =
      initializeSurfState sp (readBuf surf0 sp.nWallSpecies) ∧
    (WallState.construct thermo sp rhoi0 T0 p0 surf0).m_is_wall_state_set = false :=
  ⟨rfl, rfl, rfl, readBuf_length _ _, readBuf_length _ _, rfl, rfl, rfl, rfl⟩

/-- Thermodynamics provider used for concrete evaluations: two species,
one energy equation, identity density-to-concentration conversion. -/
def thermoExample : Thermodynamics :=
  { nSpecies := 2, nEnergyEqns := 1, convertRhoToConc := fun l => l }

/-- Surface-properties provider used for concrete evaluations: three wall
species in one site category of fraction 1 with total site density 9. -/
def surfExample : SurfaceProperties :=
  { nWallSpecies := 3, nSiteCategories := 1, nTotalSites := 9,
    fracSite := fun _ => 1, nSpeciesinSite := fun _ => 3 }

/-- C7 (counterexample): the claim that every entry of speciesDensities
and temperatures is zero before the first setWallState call is false on
the code, because the Eigen vectors sized in the constructor are not
zero-initialized: a WallState constructed over memory that held the values
5, 7 and 3 exposes exactly those values. -/
theorem construct_not_zero_initialized :
    ¬ ((WallState.construct thermoExample surfExample [5, 7] [3] 0 [0, 0, 0]).mv_rhoi =
        List.replicate thermoExample.nSpecies 0 ∧
      (WallState.construct thermoExample surfExample [5, 7] [3] 0 [0, 0, 0]).mv_T =
        List.replicate thermoExample.nEnergyEqns 0) := by
  decide

theorem applyOp_flag_mono (w : WallState) (op : WallOp)
    (hw : w.m_is_wall_state_set = true) :
    (applyOp w op).m_is_wall_state_set = true := by
  cases op with
  | setState m e sv =>
      by_cases h0 : sv = 0
      · simp [applyOp, WallState.setWallState, h0, WallState.setWallT,
          WallState.setWallP]
      · by_cases h1 : sv = 1
        · simp [applyOp, WallState.setWallState, h0, h1, WallState.setWallT,
            WallState.setWallRhoi]
        · simpa [applyOp, WallState.setWallState, h0, h1] using hw
  | setRhoi p => simpa [applyOp, WallState.setWallRhoi] using hw
  | setT p => simpa [applyOp, WallState.setWallT] using hw
  | setP p => simpa [applyOp, WallState.setWallP] using hw

theorem runOps_flag_mono : ∀ (ops : List WallOp) (w : WallState),
    w.m_is_wall_state_set = true → (runOps w ops).m_is_wall_state_set = true := by
  intro ops
  induction ops with
  | nil => intro w hw; exact hw
  | cons op ops ih =>
      intro w hw
      exact ih (applyOp w op) (applyOp_flag_mono w op hw)

theorem setWallState_success_flag (w : WallState) (m e : List ℚ) (sv : ℤ)
    (h : (w.setWallState m e sv).2 = none) :
    (w.setWallState m e sv).1.m_is_wall_state_set = true := by
  by_cases h0 : sv = 0
  · simp [WallState.setWallState, h0]
  · by_cases h1 : sv = 1
    · simp [WallState.setWallState, h0, h1]
    · simp [WallState.setWallState, h0, h1] at h

/-- C8: the isSet flag is false at construction, becomes true after every
successful setWallState call, and is never reset to false by any later
operation of the core: every state reached by running further operations
after at least one successful setWallState has the flag true. -/
theorem isSet_flag_invariant (thermo : Thermodynamics) (sp : SurfaceProperties)
    (rhoi0 T0 : List ℚ) (p0 : ℚ) (surf0 : List ℚ)
    (pre : List WallOp) (p_mass p_energy : List ℚ) (sv : ℤ) (post : List WallOp)
    (hsuccess : ((runOps (WallState.construct thermo sp rhoi0 T0 p0 surf0) pre).setWallState
        p_mass p_energy sv).2 = none) :
    (WallState.construct thermo sp rhoi0 T0 p0 surf0).m_is_wall_state_set = false ∧
    (runOps (WallState.construct thermo sp rhoi0 T0 p0 surf0)
        (pre ++ WallOp.setState p_mass p_energy sv :: post)).m_is_wall_state_set = true := by
  refine ⟨rfl, ?_⟩
  rw [runOps, List.foldl_append, List.foldl_cons]
  exact runOps_flag_mono post _ (setWallState_success_flag _ _ _ _ hsuccess)

/-- WallState used for concrete evaluations: the state reached from
construction over the example providers after one id 1 setWallState with
densities 1, 2 and temperature 300 (so surfaceSiteDensities is 3, 3, 3). -/
def wExample : WallState :=
  { m_ns := 2, m_nT := 1, m_ns_surf := 3, m_set_state_rhoi_T := 1,
    mv_rhoi := [1, 2], mv_T := [300], m_p := 0,
    m_is_wall_state_set := true, mv_surf_props_state := [3, 3, 3] }

/-- Same as wExample except for the pressure field. -/
def wExampleP : WallState :=
  { wExample with m_p := 101325 }

/-- Witness for C1 at the example state and providers. -/
theorem getNdStateGasSurf_correct_witness :
    wExample.getNdStateGasSurf thermoExample [0, 0, 0, 0, 0] =
      (thermoExample.convertRhoToConc wExample.mv_rhoi).map (fun x => x * NA) ++
        wExample.mv_surf_props_state :=
  getNdStateGasSurf_correct wExample thermoExample [0, 0, 0, 0, 0]
    (by decide) (by decide) (by decide) (by decide)

/-- Witness for C2 at the example state with densities 4, 5 and
temperature 350. -/
theorem setWallState_getWallState_roundTrip_witness :
    (wExample.setWallState [4, 5] [350] 1).2 = none ∧
    ((wExample.setWallState [4, 5] [350] 1).1.getWallState [0, 0] [0] 1).error = none ∧
    ((wExample.setWallState [4, 5] [350] 1).1.getWallState [0, 0] [0] 1).p_rhoi = [4, 5] ∧
    ((wExample.setWallState [4, 5] [350] 1).1.getWallState [0, 0] [0] 1).p_rhoie = [350] :=
  setWallState_getWallState_roundTrip wExample [4, 5] [350] [0, 0] [0]
    (by decide) (by decide) (by decide) (by decide)

/-- Witness for C3 at the example providers, category 0, slot 1. -/
theorem initializeSurfState_categoryValue_witness :
    ((WallState.construct thermoExample surfExample [0, 0] [0] 0
        [0, 0, 0]).mv_surf_props_state)[siteOffset surfExample 0 + 1]? =
      some (surfExample.nTotalSites * surfExample.fracSite 0 /
        (surfExample.nSpeciesinSite 0 : ℚ)) :=
  initializeSurfState_categoryValue thermoExample surfExample [0, 0] [0] 0
    [0, 0, 0] 0 1 (by decide) (by decide) (by decide) (by decide)

/-- Witness for C4 at the example providers. -/
theorem initializeSurfState_conservation_witness :
    ((WallState.construct thermoExample surfExample [0, 0] [0] 0
        [0, 0, 0]).mv_surf_props_state).sum = surfExample.nTotalSites :=
  initializeSurfState_conservation thermoExample surfExample [0, 0] [0] 0
    [0, 0, 0] (by decide) (by norm_num [surfExample, List.range_succ]) (by decide)

/-- Witness for C5 at the unsupported id 2. -/
theorem setWallState_unsupported_witness :
    wExample.setWallState [7] [350] 2 =
      (wExample, some { argName := "variable set", value := 2,
                        message := setWallStateUnsupportedMessage }) :=
  setWallState_unsupported wExample [7] [350] 2 (by decide) (by decide)

/-- Witness for C6 at the unsupported id 0. -/
theorem getWallState_unsupported_witness :
    wExample.getWallState [0, 0] [0] 0 =
      { p_rhoi := [0, 0], p_rhoie := [0],
        error := some { argName := "variable get", value := 0,
                        message := getWallStateUnsupportedMessage } } :=
  getWallState_unsupported wExample [0, 0] [0] 0 (by decide)

/-- Witness for C8: a successful id 1 setWallState followed by a failing
id 7 setWallState leaves the isSet flag true. -/
theorem isSet_flag_invariant_witness :
    (WallState.construct thermoExample surfExample [0, 0] [0] 0
        [0, 0, 0]).m_is_wall_state_set = false ∧
    (runOps (WallState.construct thermoExample surfExample [0, 0] [0] 0 [0, 0, 0])
        ([] ++ WallOp.setState [1, 2] [300] 1 ::
          [WallOp.setState [9] [9] 7])).m_is_wall_state_set = true :=
  isSet_flag_invariant thermoExample surfExample [0, 0] [0] 0 [0, 0, 0]
    [] [1, 2] [300] 1 [WallOp.setState [9] [9] 7] (by decide)

/-- Witness for C9 at the example state, pressure buffer holding 7,
density buffer 4, 5, temperature buffer 350. -/
theorem setWallState_frame_witness :
    ((wExample.setWallState [7] [350] 0).1.mv_T = [350] ∧
     (wExample.setWallState [7] [350] 0).1.m_p = List.headD [7] 0 ∧
     (wExample.setWallState [7] [350] 0).1.mv_rhoi = wExample.mv_rhoi) ∧
    ((wExample.setWallState [4, 5] [350] 1).1.mv_T = [350] ∧
     (wExample.setWallState [4, 5] [350] 1).1.mv_rhoi = [4, 5] ∧
     (wExample.setWallState [4, 5] [350] 1).1.m_p = wExample.m_p) ∧
    (∀ (pm pe : List ℚ) (sv : ℤ),
      (wExample.setWallState pm pe sv).1.mv_surf_props_state =
        wExample.mv_surf_props_state) :=
  setWallState_frame wExample [7] [4, 5] [350] (by decide) (by decide) (by decide)

/-- Witness for C10: the example states differing only in pressure give
the same getNdStateGasSurf output. -/
theorem getNdStateGasSurf_noninterference_witness :
    wExample.getNdStateGasSurf thermoExample [0, 0, 0, 0, 0] =
      wExampleP.getNdStateGasSurf thermoExample [0, 0, 0, 0, 0] :=
  getNdStateGasSurf_noninterference thermoExample wExample wExampleP
    [0, 0, 0, 0, 0] rfl rfl rfl rfl

end Mutation
